import Mathlib

/-!
Verification development for the monaco-components repository.

Part 1 embeds `src/packages/monaco-editor-wrapper/src/wrapper.ts`
(`MonacoEditorLanguageClientWrapper`): the language-client lifecycle over a
WebSocket or worker transport.  External objects (workers, language clients,
sockets) are modelled by identity tokens; side effects are recorded in an
explicit effect trace; promise settlement is modelled by an `Outcome` value,
with the resolve/reject calls of a promise executor kept as an ordered list so
that the first-settlement-wins rule of JavaScript promises is explicit.
-/

namespace Wrapper

/-- A `Worker` handle, identified by a token. In the source a worker is an
opaque browser object; only its identity and its `terminate()` matter here. -/
structure Worker where
  wid : Nat
deriving DecidableEq, Repr

/-- A `MonacoLanguageClient` instance: an identity token plus its running
state (`isRunning()` in the source). -/
structure MonacoLanguageClient where
  lcid : Nat
  running : Bool
deriving DecidableEq, Repr

/-- `MonacoLanguageClient.isRunning()`. -/
def MonacoLanguageClient.isRunning (lc : MonacoLanguageClient) : Bool :=
  lc.running

/-- `WebSocketCallOptions` from wrapper.ts: the `onCall` callback is an
effect (recorded in the trace), `reportStatus` is the optional boolean. -/
structure WebSocketCallOptions where
  reportStatus : Option Bool
deriving DecidableEq, Repr

/-- The four transport configuration variants of
`WebSocketConfigOptions | WebSocketConfigOptionsUrl | WorkerConfigOptions |
WorkerConfigDirect` (`configType` is the constructor). -/
inductive LanguageClientOptions where
  | webSocket (secured : Bool) (host : String) (port : Option Nat)
      (path : Option String)
      (startOptions stopOptions : Option WebSocketCallOptions)
  | webSocketUrl (url : String)
      (startOptions stopOptions : Option WebSocketCallOptions)
  | workerConfig (url : String) (workerType : String) (name : Option String)
  | workerDirect (worker : Worker)
deriving DecidableEq, Repr

/-- `LanguageClientConfig`: the transport options plus the opaque
`initializationOptions` payload (modelled as an optional string). -/
structure LanguageClientConfig where
  options : LanguageClientOptions
  initializationOptions : Option String := none
deriving DecidableEq, Repr

/-- Modelled from the spec: `createUrl` lives in
`src/packages/monaco-editor-wrapper/src/utils.ts`, which is not part of the
source snapshot.  Per spec section 6 it builds a `ws://` / `wss://` URL from
the structured options according to `secured`, or passes a literal URL
through.  No claim depends on its exact output. -/
def createUrl : LanguageClientOptions → String
  | .webSocket secured host port path _ _ =>
      (if secured then "wss://" else "ws://") ++ host ++
      (match port with | some p => ":" ++ toString p | none => "") ++
      (match path with | some s => "/" ++ s | none => "")
  | .webSocketUrl url _ _ => url
  | _ => ""

/-- The fields of `EditorAppConfigClassic | EditorAppConfigVscodeApi` that
wrapper.ts itself reads: `useDiffEditor` and `codeOriginal` in `init`,
`languageId` in `createLanguageClient`, and the app kind used by
`isVscodeApiEditorApp`. -/
structure EditorAppConfig where
  vscodeApiKind : Bool
  languageId : String
  code : String
  useDiffEditor : Bool
  codeOriginal : Option String
deriving DecidableEq, Repr

/-- `InitializeServiceConfig`: only the three fields that `init` defaults are
modelled.  `configureEditorOrViewsServiceConfig` defaults to an empty record
(modelled as `Unit`); `configureConfigurationServiceConfig` carries its
`defaultWorkspaceUri`. -/
structure InitializeServiceConfig where
  enableModelService : Option Bool := none
  configureEditorOrViewsServiceConfig : Option Unit := none
  configureConfigurationServiceConfig : Option String := none
deriving DecidableEq, Repr

/-- `WrapperConfig`. -/
structure WrapperConfig where
  serviceConfig : Option InitializeServiceConfig
  editorAppConfig : EditorAppConfig
deriving DecidableEq, Repr

/-- `UserConfig`; the `htmlElement` is an identity token. -/
structure UserConfig where
  id : Option String
  htmlElement : Nat
  wrapperConfig : WrapperConfig
  languageClientConfig : Option LanguageClientConfig
deriving DecidableEq, Repr

/-- `isVscodeApiEditorApp(wrapperConfig)` from editor.ts (not in the
snapshot): it discriminates the editor-app kind of the config, which the
config model carries directly. -/
def isVscodeApiEditorApp (wrapperConfig : WrapperConfig) : Bool :=
  wrapperConfig.editorAppConfig.vscodeApiKind

/-- An `EditorAppClassic | EditorAppVscodeApi` instance: identity token, kind
and the config it was built from. -/
structure EditorApp where
  appId : Nat
  vscodeApi : Bool
  appConfig : EditorAppConfig
deriving DecidableEq, Repr

/-- The mutable fields of `MonacoEditorLanguageClientWrapper`. -/
structure WrapperState where
  languageClient : Option MonacoLanguageClient
  worker : Option Worker
  editorApp : Option EditorApp
  id : String
  htmlElement : Nat
  serviceConfig : InitializeServiceConfig
  languageClientConfig : Option LanguageClientConfig
deriving DecidableEq, Repr

/-- Behaviour of the external collaborators during one operation: whether the
language client's `dispose()` / `start()` calls succeed and the error values
they throw otherwise, the identity tokens handed out by `new Worker(...)` /
`new MonacoLanguageClient(...)` / `new EditorApp...(...)`, the value of
`Math.floor(Math.random() * 101).toString()`, and whether
`wasVscodeApiInitialized()` reports true. -/
structure Env where
  lcDisposeOk : Bool
  disposeError : String
  lcStartOk : Bool
  startError : String
  freshWorkerId : Nat
  freshLcId : Nat
  freshAppId : Nat
  randomId : String
  vscodeApiWasInitialized : Bool
deriving DecidableEq, Repr

/-- One observable side effect of the wrapper. -/
inductive Effect where
  | terminateWorker (w : Worker)
  | constructWorker (w : Worker) (url : String)
  | constructWebSocket (url : String)
  | bindReader (w : Worker)
  | bindWriter (w : Worker)
  | lcDispose (lcid : Nat)
  | lcStop (lcid : Nat)
  | lcStart (lcid : Nat)
  | startOnCall
  | stopOnCall
  | statusReport
  | consoleLog (msg : String)
  | disposeEditorEffect
  | disposeDiffEditorEffect
  | constructEditorApp (appId : Nat) (vscodeApi : Bool)
  | initServicesEffect
  | editorAppInitEffect (appId : Nat)
  | createEditorsEffect (appId : Nat) (htmlElement : Nat)
deriving DecidableEq, Repr

/-- The settlement of a promise as seen by an awaiting caller. -/
inductive Outcome where
  | fulfilled (msg : String)
  | rejected (msg : String)
  | pending
deriving DecidableEq, Repr

/-- One call to a promise executor's `resolve` or `reject` function. -/
inductive SettleCall where
  | resolveCall (msg : String)
  | rejectCall (msg : String)
deriving DecidableEq, Repr

/-- JavaScript promise executors: only the first `resolve` / `reject` call
settles the promise; later calls are ignored. -/
def firstSettle : List SettleCall → Outcome
  | [] => .pending
  | .resolveCall m :: _ => .fulfilled m
  | .rejectCall m :: _ => .rejected m

/-- Whether `lcConfig?.configType === 'WebSocket' || lcConfig?.configType ===
'WebSocketUrl'` holds (with `lcConfig` possibly absent). -/
def isSocketOptions : Option LanguageClientOptions → Bool
  | some (.webSocket ..) => true
  | some (.webSocketUrl ..) => true
  | _ => false

/-- `lcConfig?.startOptions` when the config is socket-based and the field is
present (the source accesses `startOptions` only under the socket guard). -/
def socketStartOptions : Option LanguageClientOptions → Option WebSocketCallOptions
  | some (.webSocket _ _ _ _ so _) => so
  | some (.webSocketUrl _ so _) => so
  | _ => none

/-- `lcConfig?.stopOptions` under the socket guard. -/
def socketStopOptions : Option LanguageClientOptions → Option WebSocketCallOptions
  | some (.webSocket _ _ _ _ _ so) => so
  | some (.webSocketUrl _ _ so) => so
  | _ => none

/-- `disposeLanguageClient(keepWorker?)`, wrapper.ts lines 238-255.  If a
running client exists, it is disposed; unless `keepWorker` is `true` the
worker (if any) is terminated and the handle cleared; a failing
`languageClient.dispose()` leaves all handles untouched and rejects with the
wrapped error; with no running client the call rejects with the
state-mismatch message and changes nothing. -/
def disposeLanguageClient (env : Env) (keepWorker : Option Bool)
    (st : WrapperState) : Outcome × WrapperState × List Effect :=
  match st.languageClient with
  | some lc =>
    if lc.isRunning then
      if env.lcDisposeOk then
        if keepWorker = none ∨ keepWorker = some false then
          (.fulfilled "monaco-languageclient and monaco-editor were successfully disposed.",
           { st with languageClient := none, worker := none },
           [Effect.lcDispose lc.lcid] ++
             (match st.worker with
              | some w => [Effect.terminateWorker w]
              | none => []))
        else
          (.fulfilled "monaco-languageclient and monaco-editor were successfully disposed.",
           { st with languageClient := none },
           [Effect.lcDispose lc.lcid])
      else
        (.rejected ("Disposing the monaco-languageclient resulted in error: " ++ env.disposeError),
         st, [Effect.lcDispose lc.lcid])
    else
      (.rejected "Unable to dispose monaco-languageclient: It is not yet started.", st, [])
  | none =>
      (.rejected "Unable to dispose monaco-languageclient: It is not yet started.", st, [])

/-- The result of `handleLanguageClientStart`: the ordered resolve/reject
calls it makes on the enclosing promise, the updated wrapper state, and the
effect trace. -/
structure HandleResult where
  calls : List SettleCall
  state : WrapperState
  effects : List Effect
deriving DecidableEq, Repr

/-- The settlement the enclosing promise of `startLanguageClientConnection`
reaches from the executor's resolve/reject calls. -/
def HandleResult.outcome (r : HandleResult) : Outcome :=
  firstSettle r.calls

/-- `handleLanguageClientStart(messageTransports, resolve, reject)`,
wrapper.ts lines 302-334.  A fresh language client is created and stored; the
reader's close handler (modelled separately as `onReaderClose`) is
registered; then `languageClient.start()` is awaited.  On success the
socket-only `startOptions.onCall` hook fires (plus a status report when
`reportStatus` is truthy) and `resolve` is called; on failure `reject` is
called with the wrapped error and the trailing unconditional `resolve` still
runs — first settlement wins. -/
def handleLanguageClientStart (env : Env) (st : WrapperState) : HandleResult :=
  let lc : MonacoLanguageClient := { lcid := env.freshLcId, running := false }
  let lcConfig := st.languageClientConfig.map (fun c => c.options)
  if env.lcStartOk then
    let startEffects :=
      match socketStartOptions lcConfig with
      | some so =>
          [Effect.startOnCall] ++
            (if so.reportStatus = some true then [Effect.statusReport] else [])
      | none => []
    { calls := [SettleCall.resolveCall "monaco-languageclient was successfully started."],
      state := { st with languageClient := some { lc with running := true } },
      effects := [Effect.lcStart lc.lcid] ++ startEffects }
  else
    { calls := [SettleCall.rejectCall ("monaco-languageclient start was unsuccessful: " ++ env.startError),
                SettleCall.resolveCall "monaco-languageclient was successfully started."],
      state := { st with languageClient := some lc },
      effects := [Effect.lcStart lc.lcid] }

/-- The close handler registered on `messageTransports.reader.onClose`,
wrapper.ts lines 308-317.  `lcConfig` is the configuration captured when the
handler was registered.  The client (if any) is stopped; then, only for a
socket-based configuration with `stopOptions` present, `onCall` fires and a
status report is printed exactly when `reportStatus` is truthy. -/
def onReaderClose (lcConfig : Option LanguageClientOptions)
    (st : WrapperState) : WrapperState × List Effect :=
  let (st1, stopEffects) :=
    match st.languageClient with
    | some lc =>
        ({ st with languageClient := some { lc with running := false } },
         [Effect.lcStop lc.lcid])
    | none => (st, [])
  match socketStopOptions lcConfig with
  | some so =>
      (st1, stopEffects ++ [Effect.stopOnCall] ++
        (if so.reportStatus = some true then [Effect.statusReport] else []))
  | none => (st1, stopEffects)

/-- `startLanguageClientConnection()`, wrapper.ts lines 261-300.  If a
running client exists the promise resolves immediately and nothing else
happens.  A socket configuration opens a WebSocket and waits for its `onopen`
event (the promise stays pending until then, modelled by `socketOnOpen`
below).  Otherwise, when no worker handle is stored, one is constructed from
a `WorkerConfig` or taken from a `WorkerDirect` config (with no configuration
at all the blind cast makes the executor throw, rejecting the promise); then
the browser message reader and writer are bound to the stored worker and
`handleLanguageClientStart` runs. -/
def startLanguageClientConnection (env : Env) (st : WrapperState) :
    Outcome × WrapperState × List Effect :=
  if (match st.languageClient with
      | some lc => lc.isRunning
      | none => false) then
    (.fulfilled "monaco-languageclient already running!", st, [])
  else
    let lcConfig := st.languageClientConfig.map (fun c => c.options)
    if isSocketOptions lcConfig then
      (.pending, st,
       [Effect.constructWebSocket (createUrl (lcConfig.getD (.webSocketUrl "" none none)))])
    else
      match st.worker with
      | some w =>
          let r := handleLanguageClientStart env st
          (r.outcome, r.state, [Effect.bindReader w, Effect.bindWriter w] ++ r.effects)
      | none =>
        match lcConfig with
        | some (.workerConfig url _ _) =>
            let w : Worker := { wid := env.freshWorkerId }
            let st1 := { st with worker := some w }
            let r := handleLanguageClientStart env st1
            (r.outcome, r.state,
             [Effect.constructWorker w url, Effect.bindReader w, Effect.bindWriter w] ++ r.effects)
        | some (.workerDirect dw) =>
            let st1 := { st with worker := some dw }
            let r := handleLanguageClientStart env st1
            (r.outcome, r.state,
             [Effect.bindReader dw, Effect.bindWriter dw] ++ r.effects)
        | _ =>
            (.rejected "TypeError: Cannot read properties of undefined (reading worker)", st, [])

/-- The continuation run when the WebSocket of a socket-based configuration
fires `onopen`, wrapper.ts lines 272-279: the socket reader and writer are
built and `handleLanguageClientStart` runs, settling the still-pending
promise of `startLanguageClientConnection`. -/
def socketOnOpen (env : Env) (st : WrapperState) : Outcome × WrapperState × List Effect :=
  let r := handleLanguageClientStart env st
  (r.outcome, r.state, r.effects)

/-- `restartLanguageClient(updatedWorker?, keepWorker?)`, wrapper.ts lines
199-212.  With a replacement worker the old client is disposed with
`keepWorker = false`; otherwise the caller's `keepWorker` is passed through.
A rejected disposal aborts the restart.  Then `this.worker = updatedWorker`
is assigned unconditionally, and the connection is restarted when a
language-client configuration exists. -/
def restartLanguageClient (env : Env) (updatedWorker : Option Worker)
    (keepWorker : Option Bool) (st : WrapperState) :
    Outcome × WrapperState × List Effect :=
  let (dres, st1, effects1) :=
    match updatedWorker with
    | some _ => disposeLanguageClient env (some false) st
    | none => disposeLanguageClient env keepWorker st
  match dres with
  | .rejected m => (.rejected m, st1, effects1)
  | .pending => (.pending, st1, effects1)
  | .fulfilled _ =>
    let st2 := { st1 with worker := updatedWorker }
    match st2.languageClientConfig with
    | some _ =>
        let (o, st3, effects3) := startLanguageClientConnection env st2
        (o, st3,
         effects1 ++ [Effect.consoleLog "Re-Starting monaco-languageclient"] ++ effects3)
    | none =>
        (.rejected "Unable to restart languageclient. No configuration was provided.",
         st2, effects1)

/-- `init(userConfig)`, wrapper.ts lines 94-115.  Throws the
misconfiguration error when diff mode is requested without truthy
`codeOriginal`, before touching any state; otherwise sets `id`,
`htmlElement`, adopts a supplied language-client configuration (keeping the
old one when none is supplied), and fills the service-config defaults. -/
def init (env : Env) (userConfig : UserConfig) (st : WrapperState) :
    Except String WrapperState :=
  if userConfig.wrapperConfig.editorAppConfig.useDiffEditor &&
      !(match userConfig.wrapperConfig.editorAppConfig.codeOriginal with
        | some s => s ≠ ""
        | none => false) then
    .error "Use diff editor was used without a valid config."
  else
    let newId := userConfig.id.getD env.randomId
    let lcc :=
      match userConfig.languageClientConfig with
      | some c => some c
      | none => st.languageClientConfig
    let sc := userConfig.wrapperConfig.serviceConfig.getD {}
    let sc :=
      { sc with
        enableModelService := some (sc.enableModelService.getD true),
        configureEditorOrViewsServiceConfig :=
          some (sc.configureEditorOrViewsServiceConfig.getD ()),
        configureConfigurationServiceConfig :=
          some (sc.configureConfigurationServiceConfig.getD "/tmp/") }
    .ok { st with
          id := newId,
          htmlElement := userConfig.htmlElement,
          languageClientConfig := lcc,
          serviceConfig := sc }

/-- `start(userConfig)`, wrapper.ts lines 117-139.  `init` runs first; its
throw rejects the returned promise before any editor is disposed or created.
Otherwise the old editor app (if any) is disposed, a new one is constructed,
services are initialized at most once per page, editors are created, and the
language-client connection is started when configured. -/
def start (env : Env) (userConfig : UserConfig) (st : WrapperState) :
    Outcome × WrapperState × List Effect :=
  match init env userConfig st with
  | .error m => (.rejected m, st, [])
  | .ok st1 =>
    let disposeEffects :=
      match st1.editorApp with
      | some _ => [Effect.disposeEditorEffect, Effect.disposeDiffEditorEffect]
      | none => []
    let vs := isVscodeApiEditorApp userConfig.wrapperConfig
    let app : EditorApp :=
      { appId := env.freshAppId, vscodeApi := vs,
        appConfig := userConfig.wrapperConfig.editorAppConfig }
    let st2 := { st1 with editorApp := some app }
    let serviceEffects :=
      if env.vscodeApiWasInitialized then [] else [Effect.initServicesEffect]
    let setupEffects :=
      disposeEffects ++ [Effect.constructEditorApp app.appId vs] ++ serviceEffects ++
        [Effect.editorAppInitEffect app.appId,
         Effect.createEditorsEffect app.appId st2.htmlElement]
    match st2.languageClientConfig with
    | some _ =>
        let (o, st3, effects3) := startLanguageClientConnection env st2
        (o, st3,
         setupEffects ++ [Effect.consoleLog "Starting monaco-languageclient"] ++ effects3)
    | none =>
        (.fulfilled "All fine. monaco-languageclient is not used.", st2, setupEffects)

end Wrapper

/-!
Part 2 embeds `src/packages/monaco-editor-comp/src/main.ts` (the `CodeEditor`
web component).  Its collaborator `MonacoWrapper` comes from the sibling
`./wrapper` module, which is not part of the source snapshot; the pieces of
it that main.ts touches are modelled from the spec where marked.
-/

namespace Comp

/-- JavaScript truthiness of an optional string property (`undefined` and
`''` are falsy). -/
def truthyString : Option String → Bool
  | some s => s ≠ ""
  | none => false

/-- JavaScript truthiness of an optional boolean property. -/
def truthyBool : Option Bool → Bool
  | some b => b
  | none => false

/-- The option record returned by an inline-config global function
(`Record<string, unknown>`): only the keys main.ts reads are modelled, each
absent or a string. -/
structure InlineOptions where
  code : Option String := none
  languageId : Option String := none
  modifiedCode : Option String := none
  modifiedLanguageId : Option String := none
  theme : Option String := none
deriving DecidableEq, Repr

/-- A value stored under a name on `window`: a function returning an option
record, or some non-function value. -/
inductive WindowValue where
  | funcVal (ret : InlineOptions)
  | otherVal
deriving DecidableEq, Repr

/-- The ambient `window` object: its own properties as an association list
(`hasOwnProperty` is lookup success). -/
structure WindowModel where
  entries : List (String × WindowValue)
deriving DecidableEq, Repr

/-- Own-property lookup on the window model. -/
def WindowModel.lookupName (w : WindowModel) (name : String) : Option WindowValue :=
  w.entries.lookup name

/-- Modelled from the spec: the editor configuration record held by the
comp-package `MonacoWrapper` (its `./wrapper` module is not in the source
snapshot).  Spec section 3: a plain record of code text / language id pairs
for the original and modified sides, the theme, the diff-mode flag, plus the
two inline option records main.ts stores into it.  `codeOriginal` and
`codeModified` are the two-element arrays `[code, languageId]` main.ts
indexes. -/
structure EditorConfigModel where
  codeOriginal : String × String
  codeModified : String × String
  theme : String
  useDiffEditor : Bool
  monacoEditorOptions : Option InlineOptions
  monacoDiffEditorOptions : Option InlineOptions
deriving DecidableEq, Repr

/-- Modelled from the spec: the comp-package `MonacoWrapper` instance (module
missing from the snapshot).  It owns the editor configuration and the live
editor instance; the instance is modelled by a generation token that changes
exactly when the editor is (re)created, plus the theme the editor currently
displays. -/
structure MonacoWrapperModel where
  editorConfig : EditorConfigModel
  editorGeneration : Nat
  appliedTheme : String
deriving DecidableEq, Repr

/-- Modelled from the spec: `MonacoWrapper.updateTheme` — spec section 4.3:
"on change, updates the theme property and pushes a theme-only update to the
editor without a full reload".  The applied theme follows the configured
theme; the editor instance (generation) is untouched. -/
def MonacoWrapperModel.updateTheme (m : MonacoWrapperModel) : MonacoWrapperModel :=
  { m with appliedTheme := m.editorConfig.theme }

/-- Modelled from the spec: `MonacoWrapper.setUseDiffEditor` — stores the
diff-mode flag into the configuration (spec section 3 lists the diff-mode
flag among the configuration fields mutated in place on property change). -/
def MonacoWrapperModel.setUseDiffEditor (b : Bool) (m : MonacoWrapperModel) : MonacoWrapperModel :=
  { m with editorConfig := { m.editorConfig with useDiffEditor := b } }

/-- The reflected properties and private fields of the `CodeEditor` element.
`childCount` / `firstChildIsScript` stand for `this.children`. -/
structure CodeEditorState where
  id : String
  code : String
  languageId : String
  modifiedCode : Option String
  modifiedLanguageId : Option String
  theme : String
  enableInlineConfig : Option Bool
  useDiffEditor : Option Bool
  childCount : Nat
  firstChildIsScript : Bool
  monacoWrapper : MonacoWrapperModel
deriving DecidableEq, Repr

/-- `setCode`, main.ts lines 40-43. -/
def setCode (c : String) (st : CodeEditorState) : CodeEditorState :=
  { st with
    code := c,
    monacoWrapper := { st.monacoWrapper with
      editorConfig := { st.monacoWrapper.editorConfig with
        codeOriginal := (c, st.monacoWrapper.editorConfig.codeOriginal.2) } } }

/-- `setLanguageId`, main.ts lines 45-48. -/
def setLanguageId (l : String) (st : CodeEditorState) : CodeEditorState :=
  { st with
    languageId := l,
    monacoWrapper := { st.monacoWrapper with
      editorConfig := { st.monacoWrapper.editorConfig with
        codeOriginal := (st.monacoWrapper.editorConfig.codeOriginal.1, l) } } }

/-- `setModifiedCode`, main.ts lines 50-53. -/
def setModifiedCode (c : String) (st : CodeEditorState) : CodeEditorState :=
  { st with
    modifiedCode := some c,
    monacoWrapper := { st.monacoWrapper with
      editorConfig := { st.monacoWrapper.editorConfig with
        codeModified := (c, st.monacoWrapper.editorConfig.codeModified.2) } } }

/-- `setModifiedLanguageId`, main.ts lines 55-58. -/
def setModifiedLanguageId (l : String) (st : CodeEditorState) : CodeEditorState :=
  { st with
    modifiedLanguageId := some l,
    monacoWrapper := { st.monacoWrapper with
      editorConfig := { st.monacoWrapper.editorConfig with
        codeModified := (st.monacoWrapper.editorConfig.codeModified.1, l) } } }

/-- `setTheme`, main.ts lines 60-63. -/
def setTheme (t : String) (st : CodeEditorState) : CodeEditorState :=
  { st with
    theme := t,
    monacoWrapper := { st.monacoWrapper with
      editorConfig := { st.monacoWrapper.editorConfig with theme := t } } }

/-- `isEnableInlineConfig`, main.ts lines 181-184: exactly one child, which
is a script element, and the `enableInlineConfig` property is truthy. -/
def isEnableInlineConfig (st : CodeEditorState) : Bool :=
  decide (st.childCount = 1) && st.firstChildIsScript && truthyBool st.enableInlineConfig

/-- `buildAndCallConfigFunction(basename, loggingName)`, main.ts lines
115-129: the plain-named window function wins; the id-suffixed variant is
consulted only when the plain name is absent or not a function. -/
def buildAndCallConfigFunction (w : WindowModel) (elementId : String)
    (basename : String) : Option InlineOptions :=
  match w.lookupName basename with
  | some (.funcVal ret) => some ret
  | _ =>
    match w.lookupName (basename ++ elementId) with
    | some (.funcVal ret) => some ret
    | _ => none

/-- `setMonacoEditorOptions(options)`, main.ts lines 138-151. -/
def setMonacoEditorOptions (options : Option InlineOptions)
    (st : CodeEditorState) : CodeEditorState :=
  match options with
  | none => st
  | some o =>
    let st1 := if truthyString o.code then setCode (o.code.getD "") st else st
    let st2 := if truthyString o.languageId then setLanguageId (o.languageId.getD "") st1 else st1
    let st3 := if truthyString o.theme then setTheme (o.theme.getD "") st2 else st2
    { st3 with monacoWrapper := { st3.monacoWrapper with
        editorConfig := { st3.monacoWrapper.editorConfig with
          monacoEditorOptions := some o } } }

/-- `setMonacoDiffEditorOptions(options)`, main.ts lines 160-179. -/
def setMonacoDiffEditorOptions (options : Option InlineOptions)
    (st : CodeEditorState) : CodeEditorState :=
  match options with
  | none => st
  | some o =>
    let st1 := if truthyString o.code then setCode (o.code.getD "") st else st
    let st2 := if truthyString o.languageId then setLanguageId (o.languageId.getD "") st1 else st1
    let st3 := if truthyString o.modifiedCode then setModifiedCode (o.modifiedCode.getD "") st2 else st2
    let st4 :=
      if truthyString o.modifiedLanguageId then
        setModifiedLanguageId (o.modifiedLanguageId.getD "") st3
      else st3
    let st5 := if truthyString o.theme then setTheme (o.theme.getD "") st4 else st4
    { st5 with monacoWrapper := { st5.monacoWrapper with
        editorConfig := { st5.monacoWrapper.editorConfig with
          monacoDiffEditorOptions := some o } } }

/-- `retrieveMonacoEditorOptions`, main.ts lines 131-136. -/
def retrieveMonacoEditorOptions (w : WindowModel) (st : CodeEditorState) : CodeEditorState :=
  if !isEnableInlineConfig st then st
  else setMonacoEditorOptions (buildAndCallConfigFunction w st.id "getMonacoEditorOptions") st

/-- `retrieveMonacoDiffEditorOptions`, main.ts lines 153-158. -/
def retrieveMonacoDiffEditorOptions (w : WindowModel) (st : CodeEditorState) : CodeEditorState :=
  if !isEnableInlineConfig st then st
  else setMonacoDiffEditorOptions (buildAndCallConfigFunction w st.id "getMonacoDiffEditorOptions") st

/-- `loadInlineConfig`, main.ts lines 89-94. -/
def loadInlineConfig (w : WindowModel) (st : CodeEditorState) : CodeEditorState :=
  if isEnableInlineConfig st then
    retrieveMonacoDiffEditorOptions w (retrieveMonacoEditorOptions w st)
  else st

/-- `syncPropertiesAndEditorConfig(reloadInlineConfig)`, main.ts lines
96-113: optionally reloads the inline config, then writes code and language
id into `codeOriginal`, writes the modified pair only when the corresponding
property is truthy, writes the theme, and pushes the diff-mode flag
(`this.useDiffEditor || false`) into the wrapper. -/
def syncPropertiesAndEditorConfig (w : WindowModel) (reloadInlineConfig : Bool)
    (st : CodeEditorState) : CodeEditorState :=
  let st0 := if reloadInlineConfig then loadInlineConfig w st else st
  let cfg0 := st0.monacoWrapper.editorConfig
  let cfg1 := { cfg0 with codeOriginal := (st0.code, st0.languageId) }
  let cfg2 :=
    if truthyString st0.modifiedCode then
      { cfg1 with codeModified := (st0.modifiedCode.getD "", cfg1.codeModified.2) }
    else cfg1
  let cfg3 :=
    if truthyString st0.modifiedLanguageId then
      { cfg2 with codeModified := (cfg2.codeModified.1, st0.modifiedLanguageId.getD "") }
    else cfg2
  let cfg4 := { cfg3 with theme := st0.theme }
  let st1 := { st0 with monacoWrapper := { st0.monacoWrapper with editorConfig := cfg4 } }
  { st1 with monacoWrapper :=
      MonacoWrapperModel.setUseDiffEditor (truthyBool st1.useDiffEditor) st1.monacoWrapper }

/-- The listener registered in `registerListeners`, main.ts lines 190-197:
on a change of the `(prefers-color-scheme: dark)` media query, `setTheme`
with `vs-dark` or `vs-light` according to `e.matches`, then
`monacoWrapper.updateTheme()`. -/
def handleColorSchemeChange (eventMatches : Bool) (st : CodeEditorState) : CodeEditorState :=
  let st1 := setTheme (if eventMatches then "vs-dark" else "vs-light") st
  { st1 with monacoWrapper := st1.monacoWrapper.updateTheme }

end Comp

/-!
Analysis helpers and concrete fixtures used by the theorems below.
-/

/-- Whether an effect terminates some worker. -/
def isTerminateEffect : Wrapper.Effect → Bool
  | .terminateWorker _ => true
  | _ => false

/-- Whether an effect constructs a fresh worker. -/
def isConstructWorkerEffect : Wrapper.Effect → Bool
  | .constructWorker _ _ => true
  | _ => false

/-- A fixed environment for concrete runs: external calls succeed. -/
def sampleEnv : Wrapper.Env :=
  { lcDisposeOk := true, disposeError := "boom",
    lcStartOk := true, startError := "conn",
    freshWorkerId := 6, freshLcId := 2, freshAppId := 3,
    randomId := "42", vscodeApiWasInitialized := false }

/-- An environment whose `languageClient.start()` fails. -/
def failingStartEnv : Wrapper.Env :=
  { sampleEnv with lcStartOk := false }

/-- The worker handle held before a restart. -/
def sampleWorker : Wrapper.Worker := { wid := 5 }

/-- A replacement worker supplied to `restartLanguageClient`. -/
def replacementWorker : Wrapper.Worker := { wid := 9 }

/-- A language client in the running state. -/
def runningClient : Wrapper.MonacoLanguageClient := { lcid := 1, running := true }

/-- A worker-based (`WorkerConfig`) language-client configuration. -/
def workerClientConfig : Wrapper.LanguageClientConfig :=
  { options := .workerConfig "worker.js" "module" none }

/-- A socket-based configuration carrying a `stopOptions` hook with
`reportStatus` set. -/
def socketStopConfigOptions : Option Wrapper.LanguageClientOptions :=
  some (.webSocketUrl "ws://localhost:3000" none (some { reportStatus := some true }))

/-- A wrapper whose worker-based language client is running. -/
def baseState : Wrapper.WrapperState :=
  { languageClient := some runningClient, worker := some sampleWorker,
    editorApp := none, id := "w", htmlElement := 0, serviceConfig := {},
    languageClientConfig := some workerClientConfig }

/-- A wrapper whose language client was never started. -/
def idleState : Wrapper.WrapperState :=
  { baseState with languageClient := none }

/-- A user configuration requesting diff mode without any original code. -/
def diffMisconfig : Wrapper.UserConfig :=
  { id := some "d", htmlElement := 1,
    wrapperConfig :=
      { serviceConfig := none,
        editorAppConfig :=
          { vscodeApiKind := false, languageId := "json", code := "x",
            useDiffEditor := true, codeOriginal := none } },
    languageClientConfig := none }

/-- Inline options returned by the plain-named global function. -/
def optionsPlain : Comp.InlineOptions := { code := some "plain" }

/-- Inline options returned by the id-suffixed global function. -/
def optionsSuffixed : Comp.InlineOptions := { code := some "suffixed" }

/-- A window defining both `getMonacoEditorOptions` and
`getMonacoEditorOptions7` as functions. -/
def demoWindow : Comp.WindowModel :=
  { entries := [("getMonacoEditorOptions", .funcVal optionsPlain),
                ("getMonacoEditorOptions7", .funcVal optionsSuffixed)] }

/-- A component state with falsy `modifiedCode` (empty string) and absent
`modifiedLanguageId`. -/
def demoCompState : Comp.CodeEditorState :=
  { id := "7", code := "x", languageId := "json",
    modifiedCode := some "", modifiedLanguageId := none,
    theme := "vs-dark", enableInlineConfig := some false,
    useDiffEditor := some true, childCount := 0, firstChildIsScript := false,
    monacoWrapper :=
      { editorConfig :=
          { codeOriginal := ("o", "ol"), codeModified := ("m", "ml"),
            theme := "vs-light", useDiffEditor := false,
            monacoEditorOptions := none, monacoDiffEditorOptions := none },
        editorGeneration := 1, appliedTheme := "vs-light" } }

/-- A window whose `getMonacoDiffEditorOptions` supplies a modified code
value. -/
def diffOptionsWindow : Comp.WindowModel :=
  { entries := [("getMonacoDiffEditorOptions", .funcVal { modifiedCode := some "x" })] }

/-- `demoCompState` with inline configuration active: a single script child
and a truthy `enableInlineConfig` property. -/
def inlineCompState : Comp.CodeEditorState :=
  { demoCompState with
    childCount := 1, firstChildIsScript := true, enableInlineConfig := some true }

/-- A non-socket configuration exposes no `startOptions`. -/
theorem socketStartOptions_eq_none_of_not_socket
    (o : Option Wrapper.LanguageClientOptions)
    (h : Wrapper.isSocketOptions o = false) :
    Wrapper.socketStartOptions o = none := by
  cases o with
  | none => rfl
  | some opts =>
      cases opts <;>
        simp_all [Wrapper.isSocketOptions, Wrapper.socketStartOptions]

/-- C2: when the language client is already running, invoking the
connection-start operation again resolves immediately with the
already-running message, leaves the wrapper state (in particular the
language-client instance) unchanged, and performs no effect at all — no
WebSocket, no worker, no message reader or writer is constructed. -/
theorem startConnection_noop_when_running (env : Wrapper.Env)
    (st : Wrapper.WrapperState) (lc : Wrapper.MonacoLanguageClient)
    (hlc : st.languageClient = some lc) (hrun : lc.running = true) :
    Wrapper.startLanguageClientConnection env st =
      (.fulfilled "monaco-languageclient already running!", st, []) := by
  unfold Wrapper.startLanguageClientConnection
  rw [hlc]
  simp [Wrapper.MonacoLanguageClient.isRunning, hrun]

/-- Witness for C2 at a concrete running wrapper. -/
theorem startConnection_noop_when_running_witness :
    baseState.languageClient = some runningClient ∧
    Wrapper.startLanguageClientConnection sampleEnv baseState =
      (.fulfilled "monaco-languageclient already running!", baseState, []) :=
  ⟨rfl, startConnection_noop_when_running sampleEnv baseState runningClient rfl rfl⟩

/-- C4: with no language client, or with one that is not running,
`disposeLanguageClient` rejects with the state-mismatch message and leaves
the whole wrapper state — in particular the language-client and worker
handles — unchanged, producing no effect. -/
theorem disposeLanguageClient_rejects_when_not_running (env : Wrapper.Env)
    (keepWorker : Option Bool) (st : Wrapper.WrapperState)
    (h : st.languageClient = none ∨
         ∃ lc, st.languageClient = some lc ∧ lc.running = false) :
    Wrapper.disposeLanguageClient env keepWorker st =
      (.rejected "Unable to dispose monaco-languageclient: It is not yet started.",
       st, []) := by
  unfold Wrapper.disposeLanguageClient
  rcases h with h | ⟨lc, hlc, hrun⟩
  · rw [h]
  · rw [hlc]
    simp [Wrapper.MonacoLanguageClient.isRunning, hrun]

/-- Witness for C4 at a wrapper that was never started. -/
theorem disposeLanguageClient_rejects_when_not_running_witness :
    idleState.languageClient = none ∧
    Wrapper.disposeLanguageClient sampleEnv none idleState =
      (.rejected "Unable to dispose monaco-languageclient: It is not yet started.",
       idleState, []) :=
  ⟨rfl, disposeLanguageClient_rejects_when_not_running sampleEnv none idleState (Or.inl rfl)⟩

/-- C6: when the underlying `languageClient.start()` fails, the promise
executor calls `reject` with the wrapped cause before the trailing
unconditional `resolve`, so under first-settlement-wins the promise of the
start call is rejected (not resolved) with a message wrapping the underlying
error. -/
theorem handleStart_failure_rejects_with_wrapped_cause (env : Wrapper.Env)
    (st : Wrapper.WrapperState) (h : env.lcStartOk = false) :
    (Wrapper.handleLanguageClientStart env st).calls =
      [.rejectCall ("monaco-languageclient start was unsuccessful: " ++ env.startError),
       .resolveCall "monaco-languageclient was successfully started."] ∧
    (Wrapper.handleLanguageClientStart env st).outcome =
      .rejected ("monaco-languageclient start was unsuccessful: " ++ env.startError) := by
  unfold Wrapper.handleLanguageClientStart
  simp [h, Wrapper.HandleResult.outcome, Wrapper.firstSettle]

/-- Witness for C6 at a concrete failing environment. -/
theorem handleStart_failure_rejects_with_wrapped_cause_witness :
    failingStartEnv.lcStartOk = false ∧
    (Wrapper.handleLanguageClientStart failingStartEnv idleState).outcome =
      .rejected ("monaco-languageclient start was unsuccessful: " ++ failingStartEnv.startError) :=
  ⟨rfl, (handleStart_failure_rejects_with_wrapped_cause failingStartEnv idleState rfl).2⟩

/-- C7: whenever the transport reader closes after a started connection
(whatever the configuration: worker-based, socket without a hook, or socket
with one), the language client is stopped; when the configuration is
socket-based and carries a `stopOptions` hook, `onCall` fires right after
the stop, followed by a status report exactly when `reportStatus` is set;
without such a hook nothing beyond the stop happens. -/
theorem onReaderClose_stops_and_fires_stop_hook
    (cfg : Option Wrapper.LanguageClientOptions) (st : Wrapper.WrapperState)
    (lc : Wrapper.MonacoLanguageClient)
    (hlc : st.languageClient = some lc) :
    (Wrapper.onReaderClose cfg st).1.languageClient = some { lc with running := false } ∧
    (∀ so, Wrapper.socketStopOptions cfg = some so →
       (Wrapper.onReaderClose cfg st).2 =
         [Wrapper.Effect.lcStop lc.lcid, Wrapper.Effect.stopOnCall] ++
           (if so.reportStatus = some true then [Wrapper.Effect.statusReport] else [])) ∧
    (Wrapper.socketStopOptions cfg = none →
       (Wrapper.onReaderClose cfg st).2 = [Wrapper.Effect.lcStop lc.lcid]) := by
  unfold Wrapper.onReaderClose
  rw [hlc]
  cases h : Wrapper.socketStopOptions cfg with
  | none => simp
  | some so2 => simp

/-- Witness for C7 at a started wrapper and a socket configuration with
`reportStatus` set: the client is stopped and the hook and report fire. -/
theorem onReaderClose_stops_and_fires_stop_hook_witness :
    (Wrapper.onReaderClose socketStopConfigOptions baseState).1.languageClient =
      some { lcid := 1, running := false } ∧
    (Wrapper.onReaderClose socketStopConfigOptions baseState).2 =
      [Wrapper.Effect.lcStop 1, Wrapper.Effect.stopOnCall, Wrapper.Effect.statusReport] :=
  ⟨(onReaderClose_stops_and_fires_stop_hook socketStopConfigOptions
      baseState runningClient rfl).1,
   (onReaderClose_stops_and_fires_stop_hook socketStopConfigOptions
      baseState runningClient rfl).2.1 { reportStatus := some true } rfl⟩

/-- C3: with the diff-editor flag set and no (or empty, hence falsy)
original code supplied, `start` fails with the misconfiguration error while
the wrapper state is left untouched and no effect happens — in particular no
editor is disposed or created before the failure. -/
theorem start_diff_misconfig_fails_before_editor (env : Wrapper.Env)
    (uc : Wrapper.UserConfig) (st : Wrapper.WrapperState)
    (hdiff : uc.wrapperConfig.editorAppConfig.useDiffEditor = true)
    (horig : uc.wrapperConfig.editorAppConfig.codeOriginal = none ∨
             uc.wrapperConfig.editorAppConfig.codeOriginal = some "") :
    Wrapper.start env uc st =
      (.rejected "Use diff editor was used without a valid config.", st, []) := by
  unfold Wrapper.start Wrapper.init
  rcases horig with h | h <;> simp [hdiff, h]

/-- Witness for C3 at a concrete misconfigured user configuration. -/
theorem start_diff_misconfig_fails_before_editor_witness :
    diffMisconfig.wrapperConfig.editorAppConfig.useDiffEditor = true ∧
    Wrapper.start sampleEnv diffMisconfig idleState =
      (.rejected "Use diff editor was used without a valid config.", idleState, []) :=
  ⟨rfl, start_diff_misconfig_fails_before_editor sampleEnv diffMisconfig idleState rfl (Or.inl rfl)⟩

/-- C8: on a system color-scheme change event, the component's theme becomes
`vs-dark` when dark is preferred and `vs-light` otherwise, the same theme is
written into the wrapper configuration and pushed as the applied editor
theme, and the editor instance (its generation) is not recreated. -/
theorem colorScheme_change_theme_only (eventMatches : Bool)
    (st : Comp.CodeEditorState) :
    (Comp.handleColorSchemeChange eventMatches st).theme =
      (if eventMatches then "vs-dark" else "vs-light") ∧
    (Comp.handleColorSchemeChange eventMatches st).monacoWrapper.editorConfig.theme =
      (if eventMatches then "vs-dark" else "vs-light") ∧
    (Comp.handleColorSchemeChange eventMatches st).monacoWrapper.appliedTheme =
      (if eventMatches then "vs-dark" else "vs-light") ∧
    (Comp.handleColorSchemeChange eventMatches st).monacoWrapper.editorGeneration =
      st.monacoWrapper.editorGeneration := by
  cases eventMatches <;>
    simp [Comp.handleColorSchemeChange, Comp.setTheme, Comp.MonacoWrapperModel.updateTheme]

/-- C9: the plain-named global inline-config function always wins: when it
is defined as a function on the window it is the one called, whatever the
id-suffixed name holds; the id-suffixed variant is consulted exactly when
the plain name is absent or bound to a non-function. -/
theorem inline_config_plain_name_wins (w : Comp.WindowModel)
    (elementId basename : String) :
    (∀ r1, w.lookupName basename = some (.funcVal r1) →
       Comp.buildAndCallConfigFunction w elementId basename = some r1) ∧
    (w.lookupName basename = none ∨ w.lookupName basename = some .otherVal →
       Comp.buildAndCallConfigFunction w elementId basename =
         (match w.lookupName (basename ++ elementId) with
          | some (.funcVal r2) => some r2
          | _ => none)) := by
  constructor
  · intro r1 h
    unfold Comp.buildAndCallConfigFunction
    rw [h]
  · intro h
    unfold Comp.buildAndCallConfigFunction
    rcases h with h | h <;> rw [h]

/-- Witness for C9: with both `getMonacoEditorOptions` and
`getMonacoEditorOptions7` defined as functions, the plain one is used. -/
theorem inline_config_plain_name_wins_witness :
    demoWindow.lookupName "getMonacoEditorOptions" = some (.funcVal optionsPlain) ∧
    demoWindow.lookupName "getMonacoEditorOptions7" = some (.funcVal optionsSuffixed) ∧
    Comp.buildAndCallConfigFunction demoWindow "7" "getMonacoEditorOptions" = some optionsPlain :=
  ⟨by decide, by decide,
   (inline_config_plain_name_wins demoWindow "7" "getMonacoEditorOptions").1 optionsPlain (by decide)⟩

/-- C10 counterexample: the claim as stated is false once the inline-config
reload is in play.  At a state whose `modifiedCode` property is the empty
string (falsy) and whose modified-code slot holds `"m"`, a sync with the
reload flag set and an inline `getMonacoDiffEditorOptions` returning a
modified code value rewrites the slot to `"x"`: the reload goes through
`setModifiedCode` (main.ts lines 169-171), which writes `codeModified[0]`
before the guarded property writes run. -/
theorem sync_falsy_modified_rewritten_by_inline_reload :
    Comp.truthyString inlineCompState.modifiedCode = false ∧
    inlineCompState.monacoWrapper.editorConfig.codeModified.1 = "m" ∧
    (Comp.syncPropertiesAndEditorConfig diffOptionsWindow true
        inlineCompState).monacoWrapper.editorConfig.codeModified.1 = "x" := by
  decide

/-- C10 (amended): in every property-to-configuration sync in which the
inline-config reload is not in play (the reload flag is false, or inline
configuration is disabled), a falsy `modifiedCode` (resp.
`modifiedLanguageId`) leaves the corresponding modified slot of the wrapper
configuration unchanged, while code, language id, theme and the diff-editor
flag are always written through. -/
theorem sync_skips_falsy_modified_fields (w : Comp.WindowModel)
    (reloadInlineConfig : Bool) (st : Comp.CodeEditorState)
    (hnoload : reloadInlineConfig = false ∨ Comp.isEnableInlineConfig st = false) :
    (Comp.truthyString st.modifiedCode = false →
       (Comp.syncPropertiesAndEditorConfig w reloadInlineConfig st).monacoWrapper.editorConfig.codeModified.1 =
         st.monacoWrapper.editorConfig.codeModified.1) ∧
    (Comp.truthyString st.modifiedLanguageId = false →
       (Comp.syncPropertiesAndEditorConfig w reloadInlineConfig st).monacoWrapper.editorConfig.codeModified.2 =
         st.monacoWrapper.editorConfig.codeModified.2) ∧
    (Comp.syncPropertiesAndEditorConfig w reloadInlineConfig st).monacoWrapper.editorConfig.codeOriginal =
      (st.code, st.languageId) ∧
    (Comp.syncPropertiesAndEditorConfig w reloadInlineConfig st).monacoWrapper.editorConfig.theme =
      st.theme ∧
    (Comp.syncPropertiesAndEditorConfig w reloadInlineConfig st).monacoWrapper.editorConfig.useDiffEditor =
      Comp.truthyBool st.useDiffEditor := by
  have hst0 :
      (if reloadInlineConfig then Comp.loadInlineConfig w st else st) = st := by
    rcases hnoload with h | h
    · rw [h]; rfl
    · cases reloadInlineConfig with
      | false => rfl
      | true => simp [Comp.loadInlineConfig, h]
  unfold Comp.syncPropertiesAndEditorConfig
  rw [hst0]
  simp only [Comp.MonacoWrapperModel.setUseDiffEditor]
  refine ⟨?_, ?_, ?_, ?_, ?_⟩
  · intro hfalsy
    simp only [hfalsy, Bool.false_eq_true, if_false]
    split <;> rfl
  · intro hfalsy
    simp only [hfalsy, Bool.false_eq_true, if_false]
    split <;> rfl
  · split <;> split <;> rfl
  · trivial
  · trivial

/-- Witness for C10 at a state whose `modifiedCode` is the empty string and
whose `modifiedLanguageId` is absent. -/
theorem sync_skips_falsy_modified_fields_witness :
    Comp.truthyString demoCompState.modifiedCode = false ∧
    (Comp.syncPropertiesAndEditorConfig demoWindow false demoCompState).monacoWrapper.editorConfig.codeModified.1 =
      demoCompState.monacoWrapper.editorConfig.codeModified.1 ∧
    (Comp.syncPropertiesAndEditorConfig demoWindow false demoCompState).monacoWrapper.editorConfig.theme =
      demoCompState.theme :=
  ⟨by decide,
   (sync_skips_falsy_modified_fields demoWindow false demoCompState (Or.inl rfl)).1 (by decide),
   (sync_skips_falsy_modified_fields demoWindow false demoCompState (Or.inl rfl)).2.2.2.1⟩

/-- C1: evaluated at a wrapper whose worker-based (`WorkerConfig`) language
client is running with worker handle 5, `restartLanguageClient` with no
replacement worker and `keepWorker = true` does NOT leave the stored worker
handle unchanged: the unconditional `this.worker = updatedWorker` assignment
clears it, so the subsequent connection start constructs a fresh worker
(handle 6) and binds the message reader and writer to it, while the kept
worker 5 is never terminated and never reused — contradicting the claimed
frame property (the code keeps the old worker alive but orphans it). -/
theorem restart_keepWorker_discards_worker_handle :
    baseState.worker = some sampleWorker ∧
    (Wrapper.restartLanguageClient sampleEnv none (some true) baseState).2.1.worker =
      some { wid := 6 } ∧
    some { wid := 6 } ≠ baseState.worker ∧
    Wrapper.Effect.constructWorker { wid := 6 } "worker.js" ∈
      (Wrapper.restartLanguageClient sampleEnv none (some true) baseState).2.2 ∧
    Wrapper.Effect.bindReader { wid := 6 } ∈
      (Wrapper.restartLanguageClient sampleEnv none (some true) baseState).2.2 ∧
    (Wrapper.restartLanguageClient sampleEnv none (some true) baseState).2.2.countP
      isTerminateEffect = 0 := by
  decide

/-- C5: with a running worker-based language client whose worker is `w`, a
restart with a supplied replacement worker `w2` terminates `w` exactly once
(and terminates nothing else), constructs no further worker, stores `w2` as
the wrapper's worker handle, and every message reader and writer constructed
afterwards is bound to `w2` only. -/
theorem restart_replacement_terminates_old_binds_new_only (env : Wrapper.Env)
    (st : Wrapper.WrapperState) (lc : Wrapper.MonacoLanguageClient)
    (w w2 : Wrapper.Worker) (keepWorker : Option Bool)
    (hlc : st.languageClient = some lc) (hrun : lc.running = true)
    (hw : st.worker = some w)
    (hcfg : st.languageClientConfig.isSome = true)
    (hsock : Wrapper.isSocketOptions (st.languageClientConfig.map (fun c => c.options)) = false)
    (hdisp : env.lcDisposeOk = true) :
    (Wrapper.restartLanguageClient env (some w2) keepWorker st).2.1.worker = some w2 ∧
    (Wrapper.restartLanguageClient env (some w2) keepWorker st).2.2.countP isTerminateEffect = 1 ∧
    Wrapper.Effect.terminateWorker w ∈
      (Wrapper.restartLanguageClient env (some w2) keepWorker st).2.2 ∧
    (∀ w3, Wrapper.Effect.bindReader w3 ∈
        (Wrapper.restartLanguageClient env (some w2) keepWorker st).2.2 → w3 = w2) ∧
    (∀ w3, Wrapper.Effect.bindWriter w3 ∈
        (Wrapper.restartLanguageClient env (some w2) keepWorker st).2.2 → w3 = w2) ∧
    (Wrapper.restartLanguageClient env (some w2) keepWorker st).2.2.countP
      isConstructWorkerEffect = 0 := by
  obtain ⟨cfg, hcfgeq⟩ := Option.isSome_iff_exists.mp hcfg
  have hsock2 : Wrapper.isSocketOptions (some cfg.options) = false := by
    rw [hcfgeq] at hsock
    simpa using hsock
  have hstartopt := socketStartOptions_eq_none_of_not_socket (some cfg.options) hsock2
  cases hstart : env.lcStartOk <;>
    simp [Wrapper.restartLanguageClient, Wrapper.disposeLanguageClient,
          Wrapper.startLanguageClientConnection, Wrapper.handleLanguageClientStart,
          Wrapper.MonacoLanguageClient.isRunning, Wrapper.HandleResult.outcome,
          hlc, hrun, hw, hdisp, hcfgeq, hsock2, hstartopt, hstart,
          isTerminateEffect, isConstructWorkerEffect, List.countP_cons]

/-- Witness for C5 at a concrete wrapper and replacement worker: the old
worker 5 is terminated exactly once and the new handle 9 is stored. -/
theorem restart_replacement_terminates_old_binds_new_only_witness :
    baseState.languageClient = some runningClient ∧
    (Wrapper.restartLanguageClient sampleEnv (some replacementWorker) none baseState).2.1.worker =
      some replacementWorker ∧
    (Wrapper.restartLanguageClient sampleEnv (some replacementWorker) none baseState).2.2.countP
      isTerminateEffect = 1 ∧
    Wrapper.Effect.terminateWorker sampleWorker ∈
      (Wrapper.restartLanguageClient sampleEnv (some replacementWorker) none baseState).2.2 :=
  ⟨rfl,
   (restart_replacement_terminates_old_binds_new_only sampleEnv baseState runningClient
      sampleWorker replacementWorker none rfl rfl rfl rfl rfl rfl).1,
   (restart_replacement_terminates_old_binds_new_only sampleEnv baseState runningClient
      sampleWorker replacementWorker none rfl rfl rfl rfl rfl rfl).2.1,
   (restart_replacement_terminates_old_binds_new_only sampleEnv baseState runningClient
      sampleWorker replacementWorker none rfl rfl rfl rfl rfl rfl).2.2.1⟩
